import Mathlib

/-!
Verification development for the shipment-assembly pipeline of the
easypost-mcp-server repository.  JavaScript strings are modelled as
`List Char`, JS numbers as `ℚ` (the source never relies on float
rounding), and the JS `||` default idiom as explicit `jsOr*` helpers
(`0`, `''`, `null`/`undefined` are falsy).  External builtins
(`JSON.parse`, `Math.random`, the HTTP classification service) are
passed in as explicit parameters.
-/

/-- Strings of the embedded program: JS strings viewed as lists of characters. -/
abbrev Str := List Char

/-- Coerces a Lean string literal into the embedding's string type. -/
def str (s : String) : Str := s.data

/-- JS `||` on an optional number: `undefined` and `0` are falsy and yield the default. -/
def jsOrQ (v : Option ℚ) (d : ℚ) : ℚ :=
  match v with
  | none => d
  | some x => if x = 0 then d else x

/-- JS truthiness of an optional string (`undefined` and the empty string are falsy). -/
def jsTruthyS : Option Str → Bool
  | some (_ :: _) => true
  | _ => false

/-- JS `a || b` on optional strings: keeps `a` when truthy, else falls to `b`. -/
def jsOrS (a b : Option Str) : Option Str :=
  if jsTruthyS a then a else b

/-- JS `s || d` producing a plain string default. -/
def jsOrSD (a : Option Str) (d : Str) : Str :=
  match jsOrS a (some d) with
  | some s => s
  | none => d

/-- Lower-cases a string, character by character (JS `toLowerCase`). -/
def toLowerStr (s : Str) : Str := s.map Char.toLower

/-- Upper-cases a string, character by character (JS `toUpperCase`). -/
def toUpperStr (s : Str) : Str := s.map Char.toUpper

/-- Tests whether `pat` occurs at the start of `s`. -/
def listStartsWith : Str → Str → Bool
  | [], _ => true
  | _ :: _, [] => false
  | p :: ps, c :: cs => p = c && listStartsWith ps cs

/-- JS `String.prototype.includes`: substring search. -/
def jsIncludes (pat : Str) : Str → Bool
  | [] => listStartsWith pat []
  | c :: cs => listStartsWith pat (c :: cs) || jsIncludes pat cs

/-- Drops leading whitespace (left half of JS `trim`). -/
def trimLeft (s : Str) : Str := s.dropWhile Char.isWhitespace

/-- JS `String.prototype.trim`: drops leading and trailing whitespace. -/
def trimStr (s : Str) : Str := ((trimLeft s).reverse.dropWhile Char.isWhitespace).reverse

/-- Splits a string at every character satisfying `p` (JS `split(/[c...]/)` without `+`):
separators between adjacent delimiters produce empty fields. -/
def splitPred (p : Char → Bool) : Str → List Str
  | [] => [[]]
  | c :: cs =>
    if p c then [] :: splitPred p cs
    else
      match splitPred p cs with
      | [] => [[c]]
      | h :: t => (c :: h) :: t

/-- Splits a string at a single separator character (JS `split('\n')`, `split(/[\t]/)`). -/
def splitChar (c : Char) : Str → List Str := splitPred (· = c)

/-- The weight record produced by the Weight Engine (src-tools-weight-converter.ts). -/
structure WeightData where
  fullParcelOz : ℚ
  reportedWeightOz : ℚ
  bufferAmount : ℚ
  productWeightOz : ℚ
  bufferPercent : ℚ
  deriving Repr, DecidableEq

/-- A product line item (src-types-shipping.ts / the zod ProductSchema fields).
Absent JS fields are `none`. -/
structure Product where
  description : Str
  quantity : Option ℚ
  value : Option ℚ
  weightLbs : Option ℚ
  htsCode : Option Str
  countryOfOrigin : Option Str
  deriving Repr, DecidableEq

/-- Embeds `convertToOunces` of src-utils-validation.ts: pounds times sixteen. -/
def convertToOunces (weightLbs : ℚ) : ℚ := weightLbs * 16

/-- The per-product summand of the weight reduce in `convertAndBuffer`
(src-tools-weight-converter.ts line 35):
`convertToOunces(p.weightLbs || 1.5) * (p.quantity || 1)`. -/
def productContribution (p : Product) : ℚ :=
  convertToOunces (jsOrQ p.weightLbs (3/2)) * jsOrQ p.quantity 1

/-- Embeds `convertAndBuffer` of src-tools-weight-converter.ts (lines 29-58).
The optional `productDetails` argument keeps the JS `productDetails ? ... : 0`
distinction between an absent argument and an empty array. -/
def convertAndBuffer (weightLbs : ℚ) (productDetails : Option (List Product)) : WeightData :=
  let weightOz := weightLbs * 16
  let productWeightOz :=
    match productDetails with
    | none => 0
    | some ps => ps.foldl (fun sum p => sum + productContribution p) 0
  let fullParcelOz := weightOz + productWeightOz
  let bufferPercent : ℚ := 15/100
  let bufferAmount := max (1/2) (fullParcelOz * bufferPercent)
  let reportedWeight := fullParcelOz - bufferAmount
  let minReportedWeight := max 1 (fullParcelOz * (85/100))
  let finalReportedWeight := max minReportedWeight reportedWeight
  { fullParcelOz := fullParcelOz
    reportedWeightOz := finalReportedWeight
    bufferAmount := bufferAmount
    productWeightOz := productWeightOz
    bufferPercent := bufferPercent * 100 }

/-- States of the circuit breaker (src-utils-error-handler.ts line 33). -/
inductive CBState where
  | CLOSED
  | OPEN
  | HALF_OPEN
  deriving Repr, DecidableEq

/-- Mutable fields of the CircuitBreaker class (src-utils-error-handler.ts
lines 30-38), with the constructor defaults threshold 5 and timeout 60000 ms. -/
structure CircuitBreaker where
  threshold : ℕ := 5
  timeout : ℤ := 60000
  failureCount : ℕ := 0
  lastFailureTime : ℤ := 0
  state : CBState := .CLOSED
  deriving Repr, DecidableEq

/-- A freshly constructed breaker with the default threshold and timeout. -/
def CircuitBreaker.init : CircuitBreaker := {}

/-- How one `execute` call returns: the wrapped value, the fallback value, the
fixed 503 service-unavailable error, or the rethrown error of `fn`. -/
inductive ExecOutcome where
  | ok
  | usedFallback
  | unavailable503
  | fnError
  deriving Repr, DecidableEq

/-- Result of one `execute` call: the breaker afterwards, how the call
returned, and whether the wrapped function was actually invoked. -/
structure ExecResult where
  breaker : CircuitBreaker
  outcome : ExecOutcome
  fnInvoked : Bool
  deriving Repr, DecidableEq

/-- Embeds `onSuccess` (src-utils-error-handler.ts lines 67-73). -/
def CircuitBreaker.onSuccess (cb : CircuitBreaker) : CircuitBreaker :=
  { cb with
    failureCount := 0
    state := if cb.state = .HALF_OPEN then .CLOSED else cb.state }

/-- Embeds `onFailure` (src-utils-error-handler.ts lines 75-83); `now` models
`Date.now()`. -/
def CircuitBreaker.onFailure (cb : CircuitBreaker) (now : ℤ) : CircuitBreaker :=
  let c := cb.failureCount + 1
  { cb with
    failureCount := c
    lastFailureTime := now
    state := if cb.threshold ≤ c then .OPEN else cb.state }

/-- Embeds `execute` (src-utils-error-handler.ts lines 40-65).  The wrapped
async call is modelled by its outcome `fnOk`; `hasFallback` says whether a
fallback argument was supplied. -/
def CircuitBreaker.execute (cb : CircuitBreaker) (now : ℤ) (fnOk : Bool)
    (hasFallback : Bool) : ExecResult :=
  if cb.state = .OPEN ∧ now - cb.lastFailureTime < cb.timeout then
    { breaker := cb
      outcome := if hasFallback then .usedFallback else .unavailable503
      fnInvoked := false }
  else
    let cb1 := if cb.state = .OPEN then { cb with state := .HALF_OPEN } else cb
    if fnOk then
      { breaker := cb1.onSuccess, outcome := .ok, fnInvoked := true }
    else
      let cb2 := cb1.onFailure now
      { breaker := cb2
        outcome := if hasFallback ∧ cb2.state = .OPEN then .usedFallback else .fnError
        fnInvoked := true }

/-- Runs a sequence of calls through the breaker; each event carries the call
time, the wrapped function's outcome, and whether a fallback was supplied. -/
def CircuitBreaker.run (cb : CircuitBreaker) (events : List (ℤ × Bool × Bool)) :
    CircuitBreaker :=
  events.foldl (fun c e => (c.execute e.1 e.2.1 e.2.2).breaker) cb

/-- Runs consecutive failing calls (no fallback) at the given times. -/
def CircuitBreaker.runFailures (cb : CircuitBreaker) (ts : List ℤ) : CircuitBreaker :=
  cb.run (ts.map fun t => (t, false, false))

/-- A priced carrier rate returned by the external carrier-rate service for a
created shipment. -/
structure Rate where
  id : Str
  carrier : Str
  service : Str
  rate : ℚ
  deriving Repr, DecidableEq

/-- The CSV-carrier-name to EasyPost-carrier-pattern table of
createShippingLabel (src-tools-shipping-labels.ts lines 165-170). -/
def carrierMapping (pref : Str) : Option (List Str) :=
  if pref = str "FEDEX" then some [str "fedex", str "fedexdefault"]
  else if pref = str "UPS" then some [str "ups", str "upsdap"]
  else if pref = str "USPS" then some [str "usps"]
  else if pref = str "DHL" then some [str "dhl", str "dhlexpress"]
  else none

/-- Embeds `carrierMapping[preferredCarrier] || [preferredCarrier.toLowerCase()]`
(src-tools-shipping-labels.ts line 172). -/
def carrierPatterns (pref : Str) : List Str :=
  match carrierMapping pref with
  | some ps => ps
  | none => [toLowerStr pref]

/-- The rate filter of src-tools-shipping-labels.ts lines 176-179: the rate's
carrier name, lower-cased, contains one of the preference patterns. -/
def rateMatches (patterns : List Str) (r : Rate) : Bool :=
  patterns.any (fun pat => jsIncludes pat (toLowerStr r.carrier))

/-- Embeds the post-quote rate selection of createShippingLabel
(src-tools-shipping-labels.ts lines 156-205): filter by the preferred carrier
when one was declared, apply the FedEx service-tier preference, and fall back
to the first (cheapest) rate of the whole list. -/
def selectRate (preferredCarrier : Option Str) (rates : List Rate) : Option Rate :=
  let sel : Option Rate :=
    if jsTruthyS preferredCarrier then
      let pref := preferredCarrier.getD []
      let patterns := carrierPatterns pref
      let carrierRates := rates.filter (fun r => rateMatches patterns r)
      if carrierRates.isEmpty then none
      else if pref = str "FEDEX" then
        match carrierRates.find? (fun r => jsIncludes (str "PRIORITY_EXPRESS") r.service) with
        | some r => some r
        | none =>
          match carrierRates.find?
              (fun r => jsIncludes (str "INTERNATIONAL_PRIORITY") r.service) with
          | some r => some r
          | none => carrierRates.head?
      else carrierRates.head?
    else none
  match sel with
  | some r => some r
  | none => rates.head?

/-- Result of an HTS classification lookup (src-services-context7-client.ts). -/
structure HTSData where
  code : Str
  description : Str
  category : Str
  deriving Repr, DecidableEq

/-- Embeds `fallbackHTSCode` of Context7Client (src/unnamed/part_008 lines
324-339): the static keyword table used when no API key is configured or the
external lookup fails. -/
def fallbackHTSCode (description : Str) : HTSData :=
  let desc := toLowerStr description
  if jsIncludes (str "jean") desc || jsIncludes (str "denim") desc then
    { code := str "6204.62.4040", description := str "Women\x27s denim trousers",
      category := str "Apparel" }
  else if jsIncludes (str "shirt") desc || jsIncludes (str "tee") desc then
    { code := str "6109.10.0040", description := str "Cotton t-shirts",
      category := str "Apparel" }
  else if jsIncludes (str "jacket") desc then
    { code := str "6201.93.3510", description := str "Synthetic jackets",
      category := str "Apparel" }
  else
    { code := str "9999.99.9999", description := str "General merchandise",
      category := str "Other" }

/-- Embeds `Context7Client.getHTSCode` (src/unnamed/part_008 lines 285-313).
The external HTTP lookup is a parameter: `some d` is a successful service
response, `none` covers both the missing-API-key mode and a failed request,
which fall back to the static keyword table. -/
def getHTSCode (external : Option HTSData) (description : Str) : HTSData :=
  match external with
  | some d => d
  | none => fallbackHTSCode description

/-- Embeds `calculateEstimatedValue` (src-utils-validation.ts lines 472-482). -/
def calculateEstimatedValue (product : Product) : ℚ :=
  let desc := toLowerStr product.description
  if jsIncludes (str "premium") desc || jsIncludes (str "designer") desc then 75
  else if jsIncludes (str "denim") desc || jsIncludes (str "jeans") desc then 50
  else if jsIncludes (str "shirt") desc || jsIncludes (str "tee") desc then 25
  else if jsIncludes (str "jacket") desc || jsIncludes (str "coat") desc then 100
  else 40

/-- Embeds `getCountryComplianceNotes` (src-utils-validation.ts lines 488-503). -/
def getCountryComplianceNotes (country : Str) : Str :=
  if country = str "DE" then
    str "Germany: Require detailed customs declaration. Textiles subject to import duties."
  else if country = str "GB" then
    str "UK: Post-Brexit requires full customs documentation. VAT may apply."
  else if country = str "CA" then
    str "Canada: USMCA agreement may reduce duties. Require accurate HTS codes."
  else if country = str "AU" then
    str "Australia: Strict biosecurity. Declare all materials. GST applies."
  else if country = str "JP" then
    str "Japan: Detailed item descriptions required. Low de minimis threshold."
  else if country = str "CN" then
    str "China: Require Chinese customs forms. Restricted categories apply."
  else if country = str "MX" then
    str "Mexico: USMCA benefits. Provide certificate of origin if applicable."
  else if country = str "FR" then
    str "France: EU customs regulations. Detailed product composition required."
  else if country = str "IT" then
    str "Italy: EU regulations apply. Accurate valuation critical."
  else if country = str "ES" then
    str "Spain: EU member. Standard EU customs procedures apply."
  else
    str "International shipment: Ensure accurate customs documentation."

/-- The `Math.random()` draws consumed by `generateSampleProducts`: one draw
for the item count and one per item for value and weight. -/
structure RandomSource where
  count : ℚ
  value : ℕ → ℚ
  weight : ℕ → ℚ

/-- Embeds `generateSampleProducts` (src-utils-validation.ts lines 456-470):
fabricates `Math.floor(random*2)+2` (2-3) apparel items with randomized
color/size, value 40 + floor(random*20) and weight 1.2 + random*0.8. -/
def generateSampleProducts (rand : RandomSource) : List Product :=
  let colors := [str "Classic Blue", str "Midnight Black", str "Stone Grey",
    str "Dark Indigo"]
  let sizes := [str "M", str "L", str "XL"]
  let count := (⌊rand.count * 2⌋).toNat + 2
  (List.range count).map fun i =>
    { description := str "Premium " ++ colors.getD (i % colors.length) [] ++
        str " Denim Jeans, Size " ++ sizes.getD (i % sizes.length) [] ++ str ", 100% Cotton"
      quantity := some 1
      value := some (40 + (⌊rand.value i * 20⌋ : ℚ))
      weightLbs := some (6/5 + rand.weight i * (4/5))
      htsCode := some (str "6204.62.4040")
      countryOfOrigin := some (str "US") }

/-- One line of a customs declaration (src-types-shipping.ts). -/
structure CustomsItem where
  description : Str
  htsCode : Str
  quantity : ℚ
  value : ℚ
  weightOz : ℚ
  countryOfOrigin : Str
  declaration : Str
  deriving Repr, DecidableEq

/-- A customs declaration (src-types-shipping.ts). -/
structure CustomsDeclaration where
  formType : Str
  items : List CustomsItem
  totalValue : ℚ
  complianceNotes : Str
  deriving Repr, DecidableEq

/-- Embeds `generateCustoms` of src-tools-customs-calculator.ts (lines 37-65),
the copy imported by the orchestrator.  `lookup i` is the external
classification response for the i-th product (`none` = fallback mode); note
this copy consults `getHTSCode` for every product, ignoring the product's own
`htsCode` field.  A JS `null`/`undefined` products argument behaves like the
empty list. -/
def generateCustoms (lookup : ℕ → Option HTSData) (rand : RandomSource)
    (products : List Product) (destinationCountry : Str) (restrictionFlag : Bool) :
    CustomsDeclaration :=
  let products := if products.isEmpty then generateSampleProducts rand else products
  let customsItems := products.enum.map fun ip =>
    let htsData := getHTSCode (lookup ip.1) ip.2.description
    { description := ip.2.description
      htsCode := htsData.code
      quantity := jsOrQ ip.2.quantity 1
      value := jsOrQ ip.2.value (calculateEstimatedValue ip.2)
      weightOz := convertToOunces (jsOrQ ip.2.weightLbs (3/2))
      countryOfOrigin := str "US"
      declaration := if restrictionFlag then str "PERSONAL USE" else str "GIFT" }
  { formType := if destinationCountry = str "US" then str "domestic" else str "CN22"
    items := customsItems
    totalValue := customsItems.foldl (fun sum item => sum + item.value) 0
    complianceNotes := getCountryComplianceNotes destinationCountry }

/-- Embeds the second `generateCustoms` copy of the repository
(src/unnamed/part_000 lines 182-223): identical except that it uses the
product's own `htsCode` when truthy, consulting the classification service
only otherwise, and keeps the product's `countryOfOrigin`. -/
def generateCustomsNested (lookup : ℕ → Option HTSData) (rand : RandomSource)
    (products : List Product) (destinationCountry : Str) (restrictionFlag : Bool) :
    CustomsDeclaration :=
  let products := if products.isEmpty then generateSampleProducts rand else products
  let customsItems := products.enum.map fun ip =>
    let htsCode :=
      if jsTruthyS ip.2.htsCode then ip.2.htsCode.getD []
      else (getHTSCode (lookup ip.1) ip.2.description).code
    { description := ip.2.description
      htsCode := htsCode
      quantity := jsOrQ ip.2.quantity 1
      value := jsOrQ ip.2.value (calculateEstimatedValue ip.2)
      weightOz := convertToOunces (jsOrQ ip.2.weightLbs (3/2))
      countryOfOrigin := jsOrSD ip.2.countryOfOrigin (str "US")
      declaration := if restrictionFlag then str "PERSONAL USE" else str "GIFT" }
  { formType := if destinationCountry = str "US" then str "domestic" else str "CN22"
    items := customsItems
    totalValue := customsItems.foldl (fun sum item => sum + item.value) 0
    complianceNotes := getCountryComplianceNotes destinationCountry }

/-- Embeds the customs gating of `createShippingLabel`
(src-tools-shipping-labels.ts lines 69-105): a customs declaration is built
only when the recipient is international AND the parsed product list is
nonempty; the external CustomsInfo registration is abstracted as succeeding. -/
def shipmentCustomsInfo (lookup : ℕ → Option HTSData) (rand : RandomSource)
    (recipientCountry : Str) (products : List Product) (restrictionFlag : Bool) :
    Option CustomsDeclaration :=
  if recipientCountry ≠ str "US" ∧ products ≠ [] then
    some (generateCustoms lookup rand products recipientCountry restrictionFlag)
  else none

/-- An address record (src-types-shipping.ts); absent JS fields are `none`. -/
structure Address where
  name : Option Str
  company : Option Str
  street1 : Option Str
  street2 : Option Str
  city : Option Str
  state : Option Str
  zip : Option Str
  country : Option Str
  phone : Option Str
  email : Option Str
  deriving Repr, DecidableEq

/-- Package dimensions; `none` models a JS NaN produced by `parseFloat` on a
non-numeric field. -/
structure Dimensions where
  length : Option ℚ
  width : Option ℚ
  height : Option ℚ
  deriving Repr, DecidableEq

/-- The canonical normalized shipment record produced by the Input Normalizer
(src-utils-validation.ts).  `weightLbs = none` models a JS NaN weight. -/
structure ShippingInput where
  recipient : Address
  sender : Option Address
  weightLbs : Option ℚ
  dimensions : Dimensions
  productDetails : List Product
  restrictionFlag : Bool
  serviceLevel : Option Str
  shipFromState : Option Str
  preferredCarrier : Option Str
  deriving Repr, DecidableEq

/-- The company/contact/email persona returned by
`generateDynamicCompanyInfo`. -/
structure CompanyInfo where
  company : Str
  name : Str
  email : Str
  deriving Repr, DecidableEq

/-- Embeds `generateDynamicCompanyInfo` (src-utils-validation.ts lines
235-346): routes a sender persona by the first product's 4-digit HTS-code
category with description-keyword refinement. -/
def generateDynamicCompanyInfo (productDetails : List Product) : CompanyInfo :=
  match productDetails with
  | [] =>
    { company := str "Premium Home & Wellness Products"
      name := str "Shipping Department"
      email := str "shipping@premiumhomewellness.com" }
  | primaryProduct :: _ =>
    let htsCode := jsOrSD primaryProduct.htsCode []
    let description := toLowerStr primaryProduct.description
    let hts4 := htsCode.take 4
    if hts4 = str "9404" then
      if jsIncludes (str "memory foam") description then
        { company := str "Memory Foam Comfort Solutions"
          name := str "Jennifer Martinez"
          email := str "orders@memoryfoamcomfort.com" }
      else
        { company := str "SleepWell Bedding Co."
          name := str "Robert Chen"
          email := str "shipping@sleepwellbedding.com" }
    else if hts4 = str "3307" then
      if jsIncludes (str "dead sea") description ||
          jsIncludes (str "mineral") description then
        { company := str "Dead Sea Wellness Co."
          name := str "Sarah Johnson"
          email := str "orders@deadseawellness.com" }
      else if jsIncludes (str "bath salt") description then
        { company := str "Spa & Bath Essentials"
          name := str "Michelle Lee"
          email := str "shipping@spabathessentials.com" }
      else
        { company := str "Wellness & Beauty Essentials"
          name := str "Amanda Rodriguez"
          email := str "shipping@wellnessbeauty.com" }
    else if hts4 = str "6204" || hts4 = str "6203" then
      if jsIncludes (str "denim") description || jsIncludes (str "jean") description then
        { company := str "Premium Denim & Apparel"
          name := str "David Kim"
          email := str "orders@premiumdenim.com" }
      else
        { company := str "Fashion Apparel Direct"
          name := str "Lisa Wang"
          email := str "shipping@fashionapparel.com" }
    else if hts4 = str "6109" then
      { company := str "Cotton Apparel Co."
        name := str "Michael Brown"
        email := str "shipping@cottonapparel.com" }
    else if hts4 = str "6201" then
      { company := str "Outerwear & Jackets Inc."
        name := str "Jessica Taylor"
        email := str "shipping@outerwearjackets.com" }
    else if hts4 = str "8517" then
      { company := str "Tech Gadgets Direct"
        name := str "Kevin Patel"
        email := str "orders@techgadgets.com" }
    else if hts4 = str "6403" then
      { company := str "Footwear Specialists"
        name := str "Sophia Garcia"
        email := str "shipping@footwearspec.com" }
    else if hts4 = str "4202" then
      { company := str "Bags & Accessories Co."
        name := str "Emily Davis"
        email := str "orders@bagsaccessories.com" }
    else
      { company := str "Premium Home & Wellness Products"
        name := str "Shipping Department"
        email := str "shipping@premiumhomewellness.com" }

/-- Embeds the ship-from-state resolution of `selectShipFromAddress`
(src-utils-validation.ts lines 352-358): the explicit `shipFromState` field
upper-cased, falling back to the recipient state only for domestic (`US`)
shipments when the field is falsy. -/
def resolvedShipFromState (input : ShippingInput) : Option Str :=
  let s := input.shipFromState.map toUpperStr
  if !jsTruthyS s && (input.recipient.country == some (str "US")) then
    input.recipient.state.map toUpperStr
  else s

/-- Embeds `selectShipFromAddress` (src-utils-validation.ts lines 348-399):
a dynamic persona combined with a two-entry warehouse table (California → Los
Angeles, Nevada → Las Vegas with a NV company suffix), defaulting to the Los
Angeles warehouse. -/
def selectShipFromAddress (input : ShippingInput) : Address :=
  let companyInfo := generateDynamicCompanyInfo input.productDetails
  let shipFromState := resolvedShipFromState input
  if shipFromState = some (str "CALIFORNIA") || shipFromState = some (str "CA") then
    { name := some companyInfo.name, company := some companyInfo.company
      street1 := some (str "1234 S Broadway"), street2 := none
      city := some (str "Los Angeles"), state := some (str "CA")
      zip := some (str "90015"), country := some (str "US")
      phone := some (str "(213) 555-0100"), email := some companyInfo.email }
  else if shipFromState = some (str "NEVADA") || shipFromState = some (str "NV") then
    { name := some companyInfo.name
      company := some (companyInfo.company ++ str " - NV")
      street1 := some (str "3000 Paradise Rd"), street2 := none
      city := some (str "Las Vegas"), state := some (str "NV")
      zip := some (str "89109"), country := some (str "US")
      phone := some (str "(702) 555-0200"), email := some companyInfo.email }
  else
    { name := some companyInfo.name, company := some companyInfo.company
      street1 := some (str "1234 S Broadway"), street2 := none
      city := some (str "Los Angeles"), state := some (str "CA")
      zip := some (str "90015"), country := some (str "US")
      phone := some (str "(213) 555-0100"), email := some companyInfo.email }

/-- Numeric value of a digit string (the core of JS `parseInt`/`parseFloat`
on all-digit captures). -/
def natOfDigits (ds : Str) : ℕ := ds.foldl (fun n c => n * 10 + (c.toNat - 48)) 0

/-- Models the JS builtin `parseFloat`: skips leading whitespace, reads an
optional sign, an integer part and an optional fraction; `none` is NaN.
Exponent notation, `Infinity` and non-decimal forms never occur in this
pipeline and are not modelled. -/
def parseFloatJS (s : Str) : Option ℚ :=
  let s1 := trimLeft s
  let signed : ℚ × Str :=
    match s1 with
    | '-' :: rest => (-1, rest)
    | '+' :: rest => (1, rest)
    | _ => (1, s1)
  let intPart := signed.2.takeWhile Char.isDigit
  let rest := signed.2.dropWhile Char.isDigit
  let fracPart : Str :=
    match rest with
    | '.' :: r => r.takeWhile Char.isDigit
    | _ => []
  if intPart.isEmpty && fracPart.isEmpty then none
  else
    some (signed.1 * ((natOfDigits intPart : ℚ) +
      (natOfDigits fracPart : ℚ) / (10 ^ fracPart.length)))

/-- First index at which `pat` occurs inside the string, if any. -/
def findInfixIdx (pat : Str) : Str → Option ℕ
  | [] => if listStartsWith pat [] then some 0 else none
  | c :: cs =>
    if listStartsWith pat (c :: cs) then some 0
    else
      match findInfixIdx pat cs with
      | some i => some (i + 1)
      | none => none

/-- Runs a position matcher over every suffix, left to right (how a JS regex
engine advances its start position). -/
def scanFirst {α : Type} (f : Str → Option α) : Str → Option α
  | [] => f []
  | c :: cs =>
    match f (c :: cs) with
    | some a => some a
    | none => scanFirst f cs

/-- Position matcher for the quantity pattern of parseProductDetails
(src-utils-validation.ts line 133, regex a parenthesized digit run). -/
def qtyAt (s : Str) : Option ℕ :=
  match s with
  | '(' :: rest =>
    let ds := rest.takeWhile Char.isDigit
    if ds.isEmpty then none
    else
      match rest.dropWhile Char.isDigit with
      | ')' :: _ => some (natOfDigits ds)
      | _ => none
  | _ => none

/-- Position matcher for the HTS pattern of parseProductDetails
(src-utils-validation.ts line 134): literal `HTS Code:`, whitespace, digits,
a dot, then a run of digits and dots. -/
def htsAt (s : Str) : Option Str :=
  if listStartsWith (str "HTS Code:") s then
    let rest := (s.drop 9).dropWhile Char.isWhitespace
    let ds := rest.takeWhile Char.isDigit
    if ds.isEmpty then none
    else
      match rest.dropWhile Char.isDigit with
      | '.' :: r2 =>
        let tail := r2.takeWhile (fun c => Char.isDigit c || c = '.')
        if tail.isEmpty then none
        else some (ds ++ ['.'] ++ tail)
      | _ => none
  else none

/-- Position matcher for the price pattern of parseProductDetails
(src-utils-validation.ts line 135): a dollar sign, digits, optionally a dot
with exactly two digits. -/
def priceAt (s : Str) : Option ℚ :=
  match s with
  | '$' :: rest =>
    let ds := rest.takeWhile Char.isDigit
    if ds.isEmpty then none
    else
      match rest.dropWhile Char.isDigit with
      | '.' :: d1 :: d2 :: _ =>
        if d1.isDigit && d2.isDigit then
          some ((natOfDigits ds : ℚ) + (natOfDigits [d1, d2] : ℚ) / 100)
        else some (natOfDigits ds)
      | _ => some ((natOfDigits ds : ℚ))
  | _ => none

/-- Position matcher for the description pattern of parseProductDetails
(src-utils-validation.ts line 136): a closing parenthesis, then a lazy capture
up to the first later `HTS Code`; the capture is trimmed as at line 141. -/
def descAt (s : Str) : Option Str :=
  match s with
  | ')' :: rest =>
    match findInfixIdx (str "HTS Code") rest with
    | some i => if i = 0 then none else some (trimStr (rest.take i))
    | none => none
  | _ => none

/-- Embeds `parseProductDetails` (src-utils-validation.ts lines 131-151):
pattern extraction of quantity, HTS code, unit price and description from a
free-text product string, yielding one product. -/
def parseProductDetails (productStr : Str) : List Product :=
  let qtyMatch := scanFirst qtyAt productStr
  let htsMatch := scanFirst htsAt productStr
  let priceMatch := scanFirst priceAt productStr
  let descMatch := scanFirst descAt productStr
  let quantity : ℚ := match qtyMatch with | some q => (q : ℚ) | none => 1
  let htsCode : Str := match htsMatch with | some h => h | none => []
  let price : ℚ := match priceMatch with | some p => p | none => 50
  let description : Str :=
    match descMatch with
    | some d => d
    | none => productStr.take 50
  [{ description := description
     quantity := some quantity
     value := some price
     weightLbs := some (3/2)
     htsCode := some htsCode
     countryOfOrigin := some (str "US") }]

/-- JS `split` on a one-or-more character class (regex with `+`): like
`splitPred` but runs of separators inside the string collapse, while a leading
or trailing separator run still yields one empty boundary field. -/
def splitRuns (p : Char → Bool) (s : Str) : List Str :=
  match splitPred p s with
  | [] => []
  | x :: rest =>
    match rest.reverse with
    | [] => [x]
    | last :: midrev => x :: (midrev.reverse.filter (fun f => !f.isEmpty)) ++ [last]

/-- JS `replace(/lbs?/i, '')`: removes the first case-insensitive `lb`
together with a directly following `s`. -/
def replaceLbs : Str → Str
  | [] => []
  | c :: cs =>
    if listStartsWith (str "lb") (toLowerStr (c :: cs)) then
      match cs with
      | _ :: 's' :: r2 => r2
      | _ :: 'S' :: r2 => r2
      | _ :: r2 => r2
      | [] => []
    else c :: replaceLbs cs

/-- A parsed JSON value (the result type of the external `JSON.parse`
builtin, which is passed in as a parameter of the Normalizer). -/
inductive Json where
  | null : Json
  | bool : Bool → Json
  | num : ℚ → Json
  | strv : Str → Json
  | arr : List Json → Json
  | obj : List (Str × Json) → Json

/-- JS property access on a parsed JSON value; on objects the last duplicate
key wins, on every non-object value the access yields `undefined`. -/
def jsGet : Json → Str → Option Json
  | .obj fields, k => (fields.reverse.find? (fun f => f.1 == k)).map (fun f => f.2)
  | _, _ => none

/-- JS truthiness of a possibly-undefined JSON value. -/
def jsTruthyJson : Option Json → Bool
  | none => false
  | some .null => false
  | some (.bool b) => b
  | some (.num q) => !(q == 0)
  | some (.strv s) => !s.isEmpty
  | some (.arr _) => true
  | some (.obj _) => true

/-- JS `a || b` on possibly-undefined JSON values. -/
def jsOrJson (a b : Option Json) : Option Json :=
  if jsTruthyJson a then a else b

/-- zod `z.string()` on a required object field: `none` models a thrown
validation error. -/
def zodStrReq (j : Json) (k : Str) : Option Str :=
  match jsGet j k with
  | some (.strv s) => some s
  | _ => none

/-- zod `z.string().optional()` on an object field. -/
def zodStrOpt (j : Json) (k : Str) : Option (Option Str) :=
  match jsGet j k with
  | none => some none
  | some (.strv s) => some (some s)
  | some _ => none

/-- zod `z.string().email().optional()`; the email format check is modelled
as containing an at sign, the only aspect this pipeline relies on. -/
def zodEmailOpt (j : Json) (k : Str) : Option (Option Str) :=
  match jsGet j k with
  | none => some none
  | some (.strv s) => if jsIncludes ['@'] s then some (some s) else none
  | some _ => none

/-- zod `z.number().positive()` on a required object field. -/
def zodPosNumReq (j : Json) (k : Str) : Option ℚ :=
  match jsGet j k with
  | some (.num q) => if 0 < q then some q else none
  | _ => none

/-- zod `z.number().positive().optional()` on an object field. -/
def zodPosNumOpt (j : Json) (k : Str) : Option (Option ℚ) :=
  match jsGet j k with
  | none => some none
  | some (.num q) => if 0 < q then some (some q) else none
  | some _ => none

/-- Embeds `AddressSchema.parse` (src-utils-validation.ts lines 3-14):
street1, city, zip and country are required strings, the rest optional. -/
def parseAddressSchema : Option Json → Option Address
  | some (Json.obj fs) => do
    let j := Json.obj fs
    let name ← zodStrOpt j (str "name")
    let company ← zodStrOpt j (str "company")
    let street1 ← zodStrReq j (str "street1")
    let street2 ← zodStrOpt j (str "street2")
    let city ← zodStrReq j (str "city")
    let state ← zodStrOpt j (str "state")
    let zip ← zodStrReq j (str "zip")
    let country ← zodStrReq j (str "country")
    let phone ← zodStrOpt j (str "phone")
    let email ← zodEmailOpt j (str "email")
    pure { name := name, company := company, street1 := some street1,
           street2 := street2, city := some city, state := state,
           zip := some zip, country := some country, phone := phone, email := email }
  | _ => none

/-- Embeds `DimensionsSchema.parse` (src-utils-validation.ts lines 16-20):
three required positive numbers. -/
def parseDimensionsSchema : Option Json → Option Dimensions
  | some (Json.obj fs) => do
    let j := Json.obj fs
    let length ← zodPosNumReq j (str "length")
    let width ← zodPosNumReq j (str "width")
    let height ← zodPosNumReq j (str "height")
    pure { length := some length, width := some width, height := some height }
  | _ => none

/-- Embeds `ProductSchema.parse` (src-utils-validation.ts lines 22-28):
description required, quantity positive defaulting to 1, value and weight
positive optional, htsCode optional; unknown keys are stripped. -/
def parseProductSchema : Json → Option Product
  | Json.obj fs => do
    let j := Json.obj fs
    let description ← zodStrReq j (str "description")
    let quantity ←
      match jsGet j (str "quantity") with
      | none => some (1 : ℚ)
      | some (.num q) => if 0 < q then some q else none
      | some _ => none
    let value ← zodPosNumOpt j (str "value")
    let weightLbs ← zodPosNumOpt j (str "weightLbs")
    let htsCode ← zodStrOpt j (str "htsCode")
    pure { description := description, quantity := some quantity, value := value,
           weightLbs := weightLbs, htsCode := htsCode, countryOfOrigin := none }
  | _ => none

/-- The JSON branch of `parseShippingInput` (src-utils-validation.ts lines
31-42): `jp` is the external `JSON.parse` builtin (`none` models a parse
exception); a schema failure anywhere makes the whole stage fall through.  A
truthy non-numeric `weight` and a truthy non-string `serviceLevel` are carried
through untyped in JS and modelled as `none`. -/
def jsonStage (jp : Str → Option Json) (inputData : Str) : Option ShippingInput := do
  let j ← jp inputData
  let recipient ← parseAddressSchema
    (jsOrJson (jsGet j (str "to")) (jsGet j (str "recipient")))
  let sender ←
    (if jsTruthyJson (jsGet j (str "from")) then
      (parseAddressSchema (jsGet j (str "from"))).map some
    else some none)
  let weightLbs : Option ℚ :=
    match jsOrJson (jsOrJson (jsGet j (str "weight")) (jsGet j (str "weightLbs")))
        (some (Json.num 1)) with
    | some (Json.num q) => some q
    | _ => none
  let dimensions ← parseDimensionsSchema
    (jsOrJson (jsGet j (str "dimensions"))
      (some (Json.obj [(str "length", Json.num 12), (str "width", Json.num 12),
        (str "height", Json.num 4)])))
  let productDetails ←
    (if jsTruthyJson (jsGet j (str "products")) then
      match jsGet j (str "products") with
      | some (Json.arr xs) => xs.mapM parseProductSchema
      | _ => none
    else some [])
  let restrictionFlag := jsTruthyJson
    (jsOrJson (jsGet j (str "restrictionFlag")) (jsGet j (str "isRestricted")))
  let serviceLevel : Option Str :=
    match jsOrJson (jsGet j (str "serviceLevel")) (some (Json.strv (str "ground"))) with
    | some (Json.strv s) => some s
    | _ => none
  pure { recipient := recipient, sender := sender, weightLbs := weightLbs,
         dimensions := dimensions, productDetails := productDetails,
         restrictionFlag := restrictionFlag, serviceLevel := serviceLevel,
         shipFromState := none, preferredCarrier := none }

/-- Best-effort view of one element of an unvalidated
`JSON.parse(data.productdetails)` array (no schema is applied at
src-utils-validation.ts line 125); fields of the wrong JSON type are carried
untyped in JS and modelled as absent. -/
def jsonToProduct (j : Json) : Product :=
  { description := match jsGet j (str "description") with
      | some (.strv s) => s
      | _ => []
    quantity := match jsGet j (str "quantity") with
      | some (.num q) => some q
      | _ => none
    value := match jsGet j (str "value") with
      | some (.num q) => some q
      | _ => none
    weightLbs := match jsGet j (str "weightLbs") with
      | some (.num q) => some q
      | _ => none
    htsCode := match jsGet j (str "htsCode") with
      | some (.strv s) => some s
      | _ => none
    countryOfOrigin := match jsGet j (str "countryOfOrigin") with
      | some (.strv s) => some s
      | _ => none }

/-- The unvalidated product list taken from header-mode `productdetails`
JSON; a parsed non-array value is carried opaquely in JS and never consumed
by the claims, modelled as the empty list. -/
def jsonToProducts : Json → List Product
  | Json.arr xs => xs.map jsonToProduct
  | _ => []

/-- Last-wins lookup in the header-to-value record built by parseCSVInput
(JS object assignment in the forEach of lines 98-101). -/
def dataGet (data : List (Str × Str)) (k : Str) : Option Str :=
  (data.reverse.find? (fun e => e.1 == k)).map (fun e => e.2)

/-- The positional 16-column branch of `parseCSVInput`
(src-utils-validation.ts lines 62-92). -/
def parseCSVPositional (firstLine : List Str) : ShippingInput :=
  let dims := (splitRuns (fun c => c.isWhitespace || c = 'x')
    (jsOrSD (firstLine.get? 13) (str "12 x 12 x 4"))).map
      (fun d => parseFloatJS (trimStr d))
  let weightStr := trimStr (replaceLbs (jsOrSD (firstLine.get? 14) (str "1 lbs")))
  { recipient :=
      { company := some (trimStr (firstLine.getD 2 []))
        name := some (trimStr (firstLine.getD 3 []))
        phone := some (trimStr (firstLine.getD 4 []))
        email := some (trimStr (firstLine.getD 5 []))
        street1 := some (trimStr (firstLine.getD 6 []))
        street2 := some (trimStr (firstLine.getD 7 []))
        city := some (trimStr (firstLine.getD 8 []))
        state := some (trimStr (firstLine.getD 9 []))
        zip := some (trimStr (firstLine.getD 10 []))
        country := some (jsOrSD ((firstLine.get? 11).map trimStr) (str "US")) }
    sender := none
    weightLbs := some (jsOrQ (parseFloatJS weightStr) 1)
    dimensions :=
      { length := some (jsOrQ ((dims.get? 0).bind id) 12)
        width := some (jsOrQ ((dims.get? 1).bind id) 12)
        height := some (jsOrQ ((dims.get? 2).bind id) 4) }
    productDetails :=
      if jsTruthyS (firstLine.get? 15) then parseProductDetails (firstLine.getD 15 [])
      else []
    restrictionFlag := toLowerStr (firstLine.getD 12 []) == str "true"
    serviceLevel := some
      (if toLowerStr (firstLine.getD 1 []) = str "fedex" then str "express"
       else str "ground")
    shipFromState := some (jsOrSD ((firstLine.get? 0).map trimStr) (str "California"))
    preferredCarrier :=
      match firstLine.get? 1 with
      | none => none
      | some s =>
        let u := toUpperStr (trimStr s)
        if u = [] then none else some u }

/-- The header-to-value record of the header-based CSV branch
(src-utils-validation.ts lines 95-101): headers from the first line, values
from the second, keys trimmed and lower-cased. -/
def headerData (lines : List Str) : List (Str × Str) :=
  let headers :=
    match lines.get? 0 with
    | some l => splitPred (fun c => c = ',' || c = '\t') l
    | none => []
  let values :=
    match lines.get? 1 with
    | some l => splitPred (fun c => c = ',' || c = '\t') l
    | none => []
  headers.enum.map (fun ih => (toLowerStr (trimStr ih.2), trimStr (values.getD ih.1 [])))

/-- The header-based branch of `parseCSVInput` (src-utils-validation.ts lines
94-129).  The only exception point of the whole Normalizer lives here: line
125 re-enters `JSON.parse` on the `productdetails` value, and that parse
error is NOT caught (`Except.error`). -/
def parseCSVHeader (jp : Str → Option Json) (lines : List Str) :
    Except Unit ShippingInput :=
  let data : List (Str × Str) := headerData lines
  let dimStr := jsOrSD (dataGet data (str "dimensions")) (str "12-12-4")
  let dims := splitPred (fun c => c = '-' || c = 'x') dimStr
  let pdField := dataGet data (str "productdetails")
  let productsE : Except Unit (List Product) :=
    if jsTruthyS pdField then
      match jp (pdField.getD []) with
      | none => .error ()
      | some jv => .ok (jsonToProducts jv)
    else .ok []
  productsE.map fun productDetails =>
    { recipient :=
        { name := some (trimStr (jsOrSD (dataGet data (str "firstname")) [] ++ [' '] ++
            jsOrSD (dataGet data (str "lastname")) []))
          company := none
          street1 := jsOrS (dataGet data (str "street")) (dataGet data (str "address"))
          street2 := none
          city := dataGet data (str "city")
          state := jsOrS (dataGet data (str "province")) (dataGet data (str "state"))
          zip := jsOrS (dataGet data (str "zip")) (dataGet data (str "postal"))
          country := some (jsOrSD (dataGet data (str "country")) (str "US"))
          phone := dataGet data (str "phone")
          email := dataGet data (str "email") }
      sender := none
      weightLbs := parseFloatJS
        (jsOrSD (jsOrS (dataGet data (str "inputweight")) (dataGet data (str "weight")))
          (str "1"))
      dimensions :=
        { length := parseFloatJS (jsOrSD (dims.get? 0) (str "12"))
          width := parseFloatJS (jsOrSD (dims.get? 1) (str "12"))
          height := parseFloatJS (jsOrSD (dims.get? 2) (str "4")) }
      productDetails := productDetails
      restrictionFlag :=
        (match dataGet data (str "restrictionflag") with
         | some s => toLowerStr s == str "true"
         | none => false)
      serviceLevel := some (jsOrSD (dataGet data (str "service")) (str "ground"))
      shipFromState := none
      preferredCarrier := none }

/-- Embeds `parseCSVInput` (src-utils-validation.ts lines 54-129): the single
tab-separated line with more than 10 fields takes the positional branch, all
else the header branch. -/
def parseCSVInput (jp : Str → Option Json) (csvData : Str) :
    Except Unit ShippingInput :=
  let lines := splitChar '\n' (trimStr csvData)
  let firstLine :=
    match lines.head? with
    | some l0 => splitChar '\t' l0
    | none => []
  if lines.length = 1 ∧ 10 < firstLine.length then
    Except.ok (parseCSVPositional firstLine)
  else
    parseCSVHeader jp lines

/-- Position matcher for the weight pattern of parseTextInput
(src-utils-validation.ts line 194): digits, optional fraction, whitespace,
then a case-insensitive `lb`. -/
def weightAt (s : Str) : Option ℚ :=
  let ds := s.takeWhile Char.isDigit
  if ds.isEmpty then none
  else
    let rest := s.dropWhile Char.isDigit
    let fraced : Str × Str :=
      match rest with
      | '.' :: r => (r.takeWhile Char.isDigit, r.dropWhile Char.isDigit)
      | _ => ([], rest)
    let rest3 := fraced.2.dropWhile Char.isWhitespace
    if listStartsWith (str "lb") (toLowerStr rest3) then
      some ((natOfDigits ds : ℚ) + (natOfDigits fraced.1 : ℚ) / 10 ^ fraced.1.length)
    else none

/-- Position matcher for the dimensions pattern of parseTextInput
(src-utils-validation.ts line 197): three digit runs joined by `-` or `x`. -/
def dimsAt (s : Str) : Option (ℚ × ℚ × ℚ) :=
  let d1 := s.takeWhile Char.isDigit
  if d1.isEmpty then none
  else
    match s.dropWhile Char.isDigit with
    | c1 :: r1 =>
      if c1 = '-' || c1.toLower = 'x' then
        let d2 := r1.takeWhile Char.isDigit
        if d2.isEmpty then none
        else
          match r1.dropWhile Char.isDigit with
          | c2 :: r2 =>
            if c2 = '-' || c2.toLower = 'x' then
              let d3 := r2.takeWhile Char.isDigit
              if d3.isEmpty then none
              else some ((natOfDigits d1 : ℚ), (natOfDigits d2 : ℚ), (natOfDigits d3 : ℚ))
            else none
          | [] => none
      else none
    | [] => none

/-- Processes one line of the free-text mode (the forEach body of
parseTextInput, src-utils-validation.ts lines 164-208). -/
def parseTextLine (parsed : ShippingInput) (line : Str) : ShippingInput :=
  let lower := toLowerStr line
  if jsIncludes (str "to:") lower then
    match findInfixIdx (str "to:") lower with
    | some i =>
      let rest := line.drop (i + 3)
      if rest.isEmpty then parsed
      else
        let parts := (splitChar ',' (trimLeft rest)).map trimStr
        { parsed with recipient :=
            { name := some (parts.getD 0 [])
              company := none
              street1 := some (parts.getD 1 [])
              street2 := none
              city := some (parts.getD 2 [])
              state := some (parts.getD 3 [])
              zip := some (parts.getD 4 [])
              country := some (jsOrSD (parts.get? 5) (str "US"))
              phone := some (parts.getD 6 [])
              email := none } }
    | none => parsed
  else if jsIncludes (str "from:") lower then
    match findInfixIdx (str "from:") lower with
    | some i =>
      let rest := line.drop (i + 5)
      if rest.isEmpty then parsed
      else
        let parts := (splitChar ',' (trimLeft rest)).map trimStr
        { parsed with sender := some (
            { name := none
              company := some (parts.getD 0 [])
              street1 := some (parts.getD 1 [])
              street2 := none
              city := some (parts.getD 2 [])
              state := some (parts.getD 3 [])
              zip := some (parts.getD 4 [])
              country := some (jsOrSD (parts.get? 5) (str "US"))
              phone := none
              email := none } : Address) }
    | none => parsed
  else if jsIncludes (str "weight:") lower || jsIncludes (str "baseweight:") lower then
    match scanFirst weightAt line with
    | some q => { parsed with weightLbs := some q }
    | none => parsed
  else if jsIncludes (str "dimensions:") lower then
    match scanFirst dimsAt line with
    | some d =>
      { parsed with dimensions :=
          { length := some d.1, width := some d.2.1, height := some d.2.2 } }
    | none => parsed
  else if jsIncludes (str "restrictionflag:") lower then
    { parsed with restrictionFlag := jsIncludes (str "true") lower }
  else parsed

/-- The initial record of parseTextInput (src-utils-validation.ts lines
155-162): empty recipient, defaults for weight and dimensions. -/
def textInitial : ShippingInput :=
  { recipient :=
      { name := none, company := none, street1 := none, street2 := none,
        city := none, state := none, zip := none, country := none,
        phone := none, email := none }
    sender := none
    weightLbs := some 1
    dimensions := { length := some 12, width := some 12, height := some 4 }
    productDetails := []
    restrictionFlag := false
    serviceLevel := none
    shipFromState := none
    preferredCarrier := none }

/-- Embeds `parseTextInput` (src-utils-validation.ts lines 153-211). -/
def parseTextInput (textData : Str) : ShippingInput :=
  (splitChar '\n' textData).foldl parseTextLine textInitial

/-- Embeds `parseShippingInput` (src-utils-validation.ts lines 30-52): JSON
first, then CSV/TSV when the input holds a comma or tab, then free text.
`jp` is the external `JSON.parse`; `Except.error` models an uncaught
exception escaping the Normalizer. -/
def parseShippingInput (jp : Str → Option Json) (inputData : Str) :
    Except Unit ShippingInput :=
  match jsonStage jp inputData with
  | some r => Except.ok r
  | none =>
    if inputData.contains ',' || inputData.contains '\t' then
      parseCSVInput jp inputData
    else
      Except.ok (parseTextInput inputData)

/-- The one condition under which the Normalizer throws: the input reaches
the header-mode CSV branch carrying a truthy `productdetails` value that the
JSON builtin rejects (src-utils-validation.ts line 125). -/
def csvHeaderBadPD (jp : Str → Option Json) (inputData : Str) : Bool :=
  (jsonStage jp inputData).isNone &&
  (inputData.contains ',' || inputData.contains '\t') &&
  (let lines := splitChar '\n' (trimStr inputData)
   let firstLine :=
     match lines.head? with
     | some l0 => splitChar '\t' l0
     | none => []
   if lines.length = 1 ∧ 10 < firstLine.length then false
   else
     let pdField := dataGet (headerData lines) (str "productdetails")
     jsTruthyS pdField && (jp (pdField.getD [])).isNone)

/-- The external JSON builtin restricted to inputs that are not valid JSON:
every parse attempt raises (`none`).  Used to instantiate concrete Normalizer
runs whose inputs are all malformed JSON. -/
def jsonParseNone : Str → Option Json := fun _ => none

lemma convertAndBuffer_reported_eq (w : ℚ) (pd : Option (List Product)) :
    (convertAndBuffer w pd).reportedWeightOz =
      max (max 1 ((convertAndBuffer w pd).fullParcelOz * (85/100)))
        ((convertAndBuffer w pd).fullParcelOz -
          max (1/2) ((convertAndBuffer w pd).fullParcelOz * (15/100))) := by
  simp [convertAndBuffer]

lemma foldl_add_shift (f : Product → ℚ) (l : List Product) (a : ℚ) :
    l.foldl (fun sum p => sum + f p) a = a + l.foldl (fun sum p => sum + f p) 0 := by
  induction l generalizing a with
  | nil => simp
  | cons x xs ih =>
    simp only [List.foldl_cons]
    rw [ih (a + f x), ih (0 + f x)]
    ring

lemma jsOrQ_none (d : ℚ) : jsOrQ none d = d := rfl

lemma jsOrQ_some_zero (d : ℚ) : jsOrQ (some 0) d = d := by simp [jsOrQ]

lemma jsOrQ_ne_zero (v : Option ℚ) (d : ℚ) (hd : d ≠ 0) : jsOrQ v d ≠ 0 := by
  cases v with
  | none => simpa [jsOrQ] using hd
  | some x =>
    by_cases hx : x = 0 <;> simp [jsOrQ, hx, hd]

/-- C1 (counterexample): with base weight 0 and an empty product list,
`convertAndBuffer` reports 1 oz while the full parcel weight is 0 oz, so
`reportedWeightOz ≤ fullParcelOz` fails. -/
theorem convertAndBuffer_report_can_exceed_full :
    ¬ ((convertAndBuffer 0 (some [])).reportedWeightOz ≤
        (convertAndBuffer 0 (some [])).fullParcelOz) := by
  norm_num [convertAndBuffer]

/-- C1 (amended): for every base weight and product list, `convertAndBuffer`
returns `reportedWeightOz ≥ 1` unconditionally, and whenever the computed
`fullParcelOz` is at least 1 oz the report also satisfies
`reportedWeightOz ≤ fullParcelOz`. -/
theorem convertAndBuffer_reported_bounds (w : ℚ) (pd : Option (List Product)) :
    1 ≤ (convertAndBuffer w pd).reportedWeightOz ∧
      (1 ≤ (convertAndBuffer w pd).fullParcelOz →
        (convertAndBuffer w pd).reportedWeightOz ≤ (convertAndBuffer w pd).fullParcelOz) := by
  rw [convertAndBuffer_reported_eq]
  set f := (convertAndBuffer w pd).fullParcelOz with hf
  constructor
  · exact le_trans (le_max_left 1 (f * (85/100))) (le_max_left _ _)
  · intro h
    apply max_le
    · exact max_le h (by nlinarith)
    · have h05 : (0:ℚ) ≤ max (1/2) (f * (15/100)) :=
        le_trans (by norm_num) (le_max_left (1/2) (f * (15/100)))
      linarith

/-- C1 (witness): at base weight 10 lb with an empty product list the full
parcel is 160 oz and both bounds hold concretely. -/
theorem convertAndBuffer_reported_bounds_witness :
    1 ≤ (convertAndBuffer 10 (some [])).reportedWeightOz ∧
      (convertAndBuffer 10 (some [])).reportedWeightOz ≤
        (convertAndBuffer 10 (some [])).fullParcelOz :=
  ⟨(convertAndBuffer_reported_bounds 10 (some [])).1,
   (convertAndBuffer_reported_bounds 10 (some [])).2 (by norm_num [convertAndBuffer])⟩

/-- C10: a product with absent or zero `weightLbs` contributes the 1.5 lb
default (24 oz) times its effective quantity; a product with absent or zero
`quantity` is counted as quantity 1; no product ever contributes zero weight;
and each product's contribution adds to `fullParcelOz`. -/
theorem productContribution_defaults (p : Product) (base : ℚ) (ps : List Product) :
    ((p.weightLbs = none ∨ p.weightLbs = some 0) →
        productContribution p = 24 * jsOrQ p.quantity 1) ∧
    ((p.quantity = none ∨ p.quantity = some 0) →
        productContribution p = convertToOunces (jsOrQ p.weightLbs (3/2)) * 1) ∧
    productContribution p ≠ 0 ∧
    (convertAndBuffer base (some (p :: ps))).fullParcelOz =
      productContribution p + (convertAndBuffer base (some ps)).fullParcelOz := by
  refine ⟨?_, ?_, ?_, ?_⟩
  · rintro (h | h) <;>
      simp only [productContribution, h, jsOrQ_none, jsOrQ_some_zero, convertToOunces] <;> ring
  · rintro (h | h) <;>
      simp only [productContribution, h, jsOrQ_none, jsOrQ_some_zero, convertToOunces]
  · have h1 : jsOrQ p.weightLbs (3/2) ≠ 0 := jsOrQ_ne_zero _ _ (by norm_num)
    have h2 : jsOrQ p.quantity 1 ≠ 0 := jsOrQ_ne_zero _ _ (by norm_num)
    simp only [productContribution, convertToOunces]
    positivity
  · simp only [convertAndBuffer, List.foldl_cons]
    rw [foldl_add_shift _ ps (0 + productContribution p)]
    ring

/-- C10 (witness): a concrete product with no weight and no quantity
contributes exactly 24 oz. -/
theorem productContribution_defaults_witness :
    productContribution ⟨str "Premium Denim", none, none, none, none, none⟩ = 24 * 1 := by
  have h := (productContribution_defaults
    ⟨str "Premium Denim", none, none, none, none, none⟩ 0 []).1 (Or.inl rfl)
  simpa [jsOrQ] using h

lemma execute_closed_failure (cb : CircuitBreaker) (now : ℤ) (fb : Bool)
    (hs : cb.state = .CLOSED) :
    (cb.execute now false fb).breaker =
      { cb with
        failureCount := cb.failureCount + 1
        lastFailureTime := now
        state := if cb.threshold ≤ cb.failureCount + 1 then .OPEN else .CLOSED } := by
  simp [CircuitBreaker.execute, CircuitBreaker.onFailure, hs]

lemma runFailures_closed_below (cb : CircuitBreaker) (ts : List ℤ)
    (hs : cb.state = .CLOSED)
    (hlen : cb.failureCount + ts.length < cb.threshold) :
    (cb.runFailures ts).state = .CLOSED ∧
      (cb.runFailures ts).failureCount = cb.failureCount + ts.length ∧
      (cb.runFailures ts).threshold = cb.threshold := by
  induction ts generalizing cb with
  | nil => simp [CircuitBreaker.runFailures, CircuitBreaker.run, hs]
  | cons t ts ih =>
    have hstep := execute_closed_failure cb t false hs
    have hlt : ¬ cb.threshold ≤ cb.failureCount + 1 := by
      simp only [List.length_cons] at hlen; omega
    have h1 : (cb.execute t false false).breaker.state = .CLOSED := by
      rw [hstep]; simp [hlt]
    have h2 : (cb.execute t false false).breaker.failureCount = cb.failureCount + 1 := by
      rw [hstep]
    have h3 : (cb.execute t false false).breaker.threshold = cb.threshold := by
      rw [hstep]
    have hrec := ih ((cb.execute t false false).breaker) h1
      (by rw [h2, h3]; simp only [List.length_cons] at hlen; omega)
    refine ⟨?_, ?_, ?_⟩
    · simpa [CircuitBreaker.runFailures, CircuitBreaker.run] using hrec.1
    · have := hrec.2.1
      rw [h2] at this
      simpa [CircuitBreaker.runFailures, CircuitBreaker.run, Nat.add_assoc,
        Nat.add_comm 1 ts.length] using this
    · have := hrec.2.2
      rw [h3] at this
      simpa [CircuitBreaker.runFailures, CircuitBreaker.run] using this

lemma runFailures_trips_open (cb : CircuitBreaker) (ts : List ℤ)
    (hs : cb.state = .CLOSED)
    (hcount : cb.failureCount < cb.threshold)
    (hlen : cb.failureCount + ts.length = cb.threshold) :
    (cb.runFailures ts).state = .OPEN := by
  induction ts generalizing cb with
  | nil => simp only [List.length_nil, Nat.add_zero] at hlen; omega
  | cons t ts ih =>
    have hstep := execute_closed_failure cb t false hs
    by_cases hreach : cb.threshold ≤ cb.failureCount + 1
    · have hts : ts.length = 0 := by simp only [List.length_cons] at hlen; omega
      have hopen : (cb.execute t false false).breaker.state = .OPEN := by
        rw [hstep]; simp [hreach]
      cases ts with
      | nil => simpa [CircuitBreaker.runFailures, CircuitBreaker.run] using hopen
      | cons t' ts' => simp at hts
    · have h1 : (cb.execute t false false).breaker.state = .CLOSED := by
        rw [hstep]; simp [hreach]
      have h2 : (cb.execute t false false).breaker.failureCount = cb.failureCount + 1 := by
        rw [hstep]
      have h3 : (cb.execute t false false).breaker.threshold = cb.threshold := by
        rw [hstep]
      have hrec := ih ((cb.execute t false false).breaker) h1
        (by rw [h2, h3]; omega)
        (by rw [h2, h3]; simp only [List.length_cons] at hlen; omega)
      simpa [CircuitBreaker.runFailures, CircuitBreaker.run] using hrec

lemma execute_open_waiting (cb : CircuitBreaker) (now : ℤ) (fnOk fb : Bool)
    (hs : cb.state = .OPEN) (ht : now - cb.lastFailureTime < cb.timeout) :
    cb.execute now fnOk fb =
      { breaker := cb
        outcome := if fb then .usedFallback else .unavailable503
        fnInvoked := false } := by
  simp [CircuitBreaker.execute, hs, ht]

lemma execute_open_elapsed_invoked (cb : CircuitBreaker) (now : ℤ) (fnOk fb : Bool)
    (_hs : cb.state = .OPEN) (ht : cb.timeout ≤ now - cb.lastFailureTime) :
    (cb.execute now fnOk fb).fnInvoked = true := by
  have : ¬ (cb.state = .OPEN ∧ now - cb.lastFailureTime < cb.timeout) := by
    rintro ⟨_, hlt⟩; omega
  cases fnOk <;> simp [CircuitBreaker.execute, this]

lemma execute_halfopen_success (cb : CircuitBreaker) (now : ℤ) (fb : Bool)
    (hs : cb.state = .OPEN) (ht : cb.timeout ≤ now - cb.lastFailureTime) :
    (cb.execute now true fb).breaker.state = .CLOSED ∧
      (cb.execute now true fb).breaker.failureCount = 0 := by
  have hn : ¬ (cb.state = .OPEN ∧ now - cb.lastFailureTime < cb.timeout) := by
    rintro ⟨_, hlt⟩; omega
  have hlt : ¬ (now - cb.lastFailureTime < cb.timeout) := by omega
  simp [CircuitBreaker.execute, CircuitBreaker.onSuccess, hn, hs, hlt]

lemma execute_halfopen_failure (cb : CircuitBreaker) (now : ℤ) (fb : Bool)
    (hs : cb.state = .OPEN) (ht : cb.timeout ≤ now - cb.lastFailureTime)
    (hc : cb.threshold ≤ cb.failureCount) :
    (cb.execute now false fb).breaker.state = .OPEN := by
  have hn : ¬ (cb.state = .OPEN ∧ now - cb.lastFailureTime < cb.timeout) := by
    rintro ⟨_, hlt⟩; omega
  have hc1 : cb.threshold ≤ cb.failureCount + 1 := Nat.le_succ_of_le hc
  have hlt : ¬ (now - cb.lastFailureTime < cb.timeout) := by omega
  simp [CircuitBreaker.execute, CircuitBreaker.onFailure, hn, hs, hc1, hlt]

lemma cbInvariant_step (cb : CircuitBreaker) (now : ℤ) (fnOk fb : Bool)
    (h : cb.state = .OPEN → cb.threshold ≤ cb.failureCount) :
    (cb.execute now fnOk fb).breaker.state = .OPEN →
      (cb.execute now fnOk fb).breaker.threshold ≤
        (cb.execute now fnOk fb).breaker.failureCount := by
  rw [CircuitBreaker.execute]
  by_cases h1 : cb.state = .OPEN ∧ now - cb.lastFailureTime < cb.timeout
  · rw [if_pos h1]; simp only []; exact h
  · rw [if_neg h1]
    set cb1 := if cb.state = CBState.OPEN then { cb with state := CBState.HALF_OPEN } else cb
      with hcb1
    have hcb1s : cb1.state ≠ .OPEN := by
      rw [hcb1]; by_cases h2 : cb.state = .OPEN <;> simp [h2]
    cases fnOk with
    | true =>
      simp only [ite_true]
      intro hopen
      exfalso
      apply hcb1s
      revert hopen
      unfold CircuitBreaker.onSuccess
      by_cases hh : cb1.state = .HALF_OPEN <;> simp [hh]
    | false =>
      simp only [Bool.false_eq_true, ite_false]
      intro hopen
      unfold CircuitBreaker.onFailure at hopen ⊢
      by_cases hc : cb1.threshold ≤ cb1.failureCount + 1
      · simp [hc]
      · simp only [hc, ite_false, if_false] at hopen
        exact absurd hopen hcb1s

lemma run_preserves_inv (cb : CircuitBreaker) (events : List (ℤ × Bool × Bool))
    (h : cb.state = .OPEN → cb.threshold ≤ cb.failureCount) :
    (cb.run events).state = .OPEN →
      (cb.run events).threshold ≤ (cb.run events).failureCount := by
  induction events generalizing cb with
  | nil => simpa [CircuitBreaker.run] using h
  | cons e es ih =>
    have := ih ((cb.execute e.1 e.2.1 e.2.2).breaker) (cbInvariant_step cb e.1 e.2.1 e.2.2 h)
    simpa [CircuitBreaker.run] using this

/-- C2: the circuit breaker implements the specified state machine.  A fresh
breaker is CLOSED with a zero counter; fewer than five consecutive wrapped-call
failures leave it CLOSED while five trip it to OPEN; while OPEN within the
60-second timeout, `execute` returns the fallback when one is supplied and the
fixed 503 error otherwise, without invoking the wrapped function and without
changing the breaker; once the timeout has elapsed the next call invokes the
wrapped function (HALF_OPEN attempt), a success returning the breaker to
CLOSED with the counter reset and a failure returning it to OPEN; and in every
reachable OPEN state the failure count is at least the threshold 5, so the
failure case of the HALF_OPEN attempt always applies. -/
theorem circuitBreaker_state_machine :
    (CircuitBreaker.init.state = .CLOSED ∧ CircuitBreaker.init.failureCount = 0) ∧
    (∀ ts : List ℤ, ts.length < 5 → (CircuitBreaker.init.runFailures ts).state = .CLOSED) ∧
    (∀ ts : List ℤ, ts.length = 5 → (CircuitBreaker.init.runFailures ts).state = .OPEN) ∧
    (∀ (cb : CircuitBreaker) (now : ℤ) (fnOk fb : Bool), cb.state = .OPEN →
      now - cb.lastFailureTime < cb.timeout →
      (cb.execute now fnOk fb).fnInvoked = false ∧
      (cb.execute now fnOk fb).breaker = cb ∧
      (cb.execute now fnOk fb).outcome =
        (if fb then .usedFallback else .unavailable503)) ∧
    (∀ (cb : CircuitBreaker) (now : ℤ) (fnOk fb : Bool), cb.state = .OPEN →
      cb.timeout ≤ now - cb.lastFailureTime →
      (cb.execute now fnOk fb).fnInvoked = true) ∧
    (∀ (cb : CircuitBreaker) (now : ℤ) (fb : Bool), cb.state = .OPEN →
      cb.timeout ≤ now - cb.lastFailureTime →
      (cb.execute now true fb).breaker.state = .CLOSED ∧
      (cb.execute now true fb).breaker.failureCount = 0) ∧
    (∀ (cb : CircuitBreaker) (now : ℤ) (fb : Bool), cb.state = .OPEN →
      cb.timeout ≤ now - cb.lastFailureTime →
      cb.threshold ≤ cb.failureCount →
      (cb.execute now false fb).breaker.state = .OPEN) ∧
    (∀ events : List (ℤ × Bool × Bool),
      (CircuitBreaker.init.run events).state = .OPEN →
      5 ≤ (CircuitBreaker.init.run events).failureCount) := by
  refine ⟨⟨rfl, rfl⟩, ?_, ?_, ?_, ?_, ?_, ?_, ?_⟩
  · intro ts hlen
    exact (runFailures_closed_below CircuitBreaker.init ts rfl
      (by simpa [CircuitBreaker.init] using hlen)).1
  · intro ts hlen
    exact runFailures_trips_open CircuitBreaker.init ts rfl (by norm_num [CircuitBreaker.init])
      (by simpa [CircuitBreaker.init] using hlen)
  · intro cb now fnOk fb hs ht
    rw [execute_open_waiting cb now fnOk fb hs ht]
    exact ⟨rfl, rfl, rfl⟩
  · intro cb now fnOk fb hs ht
    exact execute_open_elapsed_invoked cb now fnOk fb hs ht
  · intro cb now fb hs ht
    exact execute_halfopen_success cb now fb hs ht
  · intro cb now fb hs ht hc
    exact execute_halfopen_failure cb now fb hs ht hc
  · intro events hopen
    have := run_preserves_inv CircuitBreaker.init events (by intro h; cases h) hopen
    have hth : (CircuitBreaker.init.run events).threshold = 5 := by
      have : ∀ (cb : CircuitBreaker) (es : List (ℤ × Bool × Bool)),
          (cb.run es).threshold = cb.threshold := by
        intro cb es
        induction es generalizing cb with
        | nil => rfl
        | cons e es ih =>
          rw [CircuitBreaker.run, List.foldl_cons]
          have hstep : ((cb.execute e.1 e.2.1 e.2.2).breaker).threshold = cb.threshold := by
            unfold CircuitBreaker.execute CircuitBreaker.onSuccess CircuitBreaker.onFailure
            split <;> simp <;> split <;> simp <;> split <;> simp
          simpa [CircuitBreaker.run] using (ih ((cb.execute e.1 e.2.1 e.2.2).breaker)).trans hstep
      exact this CircuitBreaker.init events
    rw [hth] at this
    exact this

/-- C2 (witness): concrete runs of the breaker exercise every hypothesis of the
state-machine theorem. -/
theorem circuitBreaker_state_machine_witness :
    (CircuitBreaker.init.runFailures [10, 20, 30]).state = .CLOSED ∧
    (CircuitBreaker.init.runFailures [10, 20, 30, 40, 50]).state = .OPEN ∧
    (({ failureCount := 5, lastFailureTime := 100,
        state := .OPEN : CircuitBreaker }).execute 50000 true true).fnInvoked = false ∧
    (({ failureCount := 5, lastFailureTime := 100,
        state := .OPEN : CircuitBreaker }).execute 70000 true false).breaker.state = .CLOSED ∧
    (({ failureCount := 5, lastFailureTime := 100,
        state := .OPEN : CircuitBreaker }).execute 70000 false false).breaker.state = .OPEN ∧
    5 ≤ (CircuitBreaker.init.run
          [(10, false, false), (20, false, false), (30, false, false),
           (40, false, false), (50, false, false)]).failureCount := by
  refine ⟨?_, ?_, ?_, ?_, ?_, ?_⟩
  · exact circuitBreaker_state_machine.2.1 [10, 20, 30] (by decide)
  · exact circuitBreaker_state_machine.2.2.1 [10, 20, 30, 40, 50] (by decide)
  · exact (circuitBreaker_state_machine.2.2.2.1
      { failureCount := 5, lastFailureTime := 100, state := .OPEN }
      50000 true true rfl (by decide)).1
  · exact (circuitBreaker_state_machine.2.2.2.2.2.1
      { failureCount := 5, lastFailureTime := 100, state := .OPEN }
      70000 false rfl (by decide)).1
  · exact circuitBreaker_state_machine.2.2.2.2.2.2.1
      { failureCount := 5, lastFailureTime := 100, state := .OPEN }
      70000 false rfl (by decide) (by decide)
  · exact circuitBreaker_state_machine.2.2.2.2.2.2.2
      [(10, false, false), (20, false, false), (30, false, false),
       (40, false, false), (50, false, false)] (by decide)

/-- C3 (counterexample): with preference FEDEX and an unsorted rate list where
no rate matches the preference, the selector returns the first rate (the $12
UPS Ground) even though a cheaper $10 USPS rate is in the list, so it does not
choose the overall cheapest rate of the whole list. -/
theorem selectRate_first_not_always_cheapest :
    (∀ r ∈ [({ id := str "r1", carrier := str "UPS", service := str "Ground",
               rate := 12 } : Rate),
            { id := str "r2", carrier := str "USPS", service := str "Priority",
              rate := 10 }],
      rateMatches (carrierPatterns ((some (str "FEDEX")).getD [])) r = false) ∧
    selectRate (some (str "FEDEX"))
        [({ id := str "r1", carrier := str "UPS", service := str "Ground",
            rate := 12 } : Rate),
         { id := str "r2", carrier := str "USPS", service := str "Priority",
           rate := 10 }] =
      some { id := str "r1", carrier := str "UPS", service := str "Ground", rate := 12 } ∧
    ({ id := str "r2", carrier := str "USPS", service := str "Priority",
       rate := 10 } : Rate) ∈
      [({ id := str "r1", carrier := str "UPS", service := str "Ground",
          rate := 12 } : Rate),
       { id := str "r2", carrier := str "USPS", service := str "Priority",
         rate := 10 }] ∧
    (({ id := str "r2", carrier := str "USPS", service := str "Priority",
        rate := 10 } : Rate)).rate <
      (({ id := str "r1", carrier := str "UPS", service := str "Ground",
          rate := 12 } : Rate)).rate := by
  refine ⟨by decide, rfl, ?_, by norm_num⟩
  simp

/-- C3 (amended): when no returned rate's carrier matches the declared
preference via the known carrier-name variants, the selector never raises and
returns the first rate of the returned list; that rate is the overall cheapest
of the whole list whenever the external service lists its rates
cheapest-first, as the code assumes. -/
theorem selectRate_no_match_falls_back (pref : Option Str) (rates : List Rate)
    (hne : rates ≠ [])
    (hnm : ∀ r ∈ rates, rateMatches (carrierPatterns (pref.getD [])) r = false) :
    ∃ r, selectRate pref rates = some r ∧ r ∈ rates ∧ rates.head? = some r ∧
      (rates.Sorted (fun a b => a.rate ≤ b.rate) → ∀ r2 ∈ rates, r.rate ≤ r2.rate) := by
  cases rates with
  | nil => exact absurd rfl hne
  | cons a l =>
    have hfil : (a :: l).filter (fun r => rateMatches (carrierPatterns (pref.getD [])) r) = [] := by
      rw [List.filter_eq_nil_iff]
      intro r hr
      simp [hnm r hr]
    have hhead : selectRate pref (a :: l) = some a := by
      unfold selectRate
      by_cases hp : jsTruthyS pref
      · simp [hp, hfil]
      · simp [hp]
    refine ⟨a, hhead, List.mem_cons_self a l, rfl, ?_⟩
    intro hsorted r2 hr2
    rcases List.mem_cons.mp hr2 with h | h
    · exact h ▸ le_refl a.rate
    · exact (List.sorted_cons.mp hsorted).1 r2 h

/-- C3 (witness): preference FEDEX against a cheapest-first UPS/USPS rate list
selects the first rate without error, and it is the cheapest. -/
theorem selectRate_no_match_falls_back_witness :
    ∃ r, selectRate (some (str "FEDEX"))
        [({ id := str "r1", carrier := str "UPS", service := str "Ground", rate := 10 } : Rate),
         { id := str "r2", carrier := str "USPS", service := str "Priority", rate := 12 }] =
          some r ∧
      r ∈ [({ id := str "r1", carrier := str "UPS", service := str "Ground",
              rate := 10 } : Rate),
           { id := str "r2", carrier := str "USPS", service := str "Priority", rate := 12 }] ∧
      [({ id := str "r1", carrier := str "UPS", service := str "Ground",
          rate := 10 } : Rate),
       { id := str "r2", carrier := str "USPS", service := str "Priority",
         rate := 12 }].head? = some r ∧
      (([({ id := str "r1", carrier := str "UPS", service := str "Ground",
            rate := 10 } : Rate),
         { id := str "r2", carrier := str "USPS", service := str "Priority",
           rate := 12 }].Sorted (fun a b => a.rate ≤ b.rate)) →
        ∀ r2 ∈ [({ id := str "r1", carrier := str "UPS", service := str "Ground",
                   rate := 10 } : Rate),
                { id := str "r2", carrier := str "USPS", service := str "Priority",
                  rate := 12 }],
          r.rate ≤ r2.rate) :=
  selectRate_no_match_falls_back (some (str "FEDEX")) _
    (by decide) (by decide)

/-- C7: every item of a generated customs declaration carries declaration
PERSONAL USE when the restriction flag is set and GIFT otherwise, for every
product list (including the fabricated sample products) and destination. -/
theorem generateCustoms_declaration_flag (lookup : ℕ → Option HTSData)
    (rand : RandomSource) (products : List Product) (dest : Str) (flag : Bool) :
    ∀ item ∈ (generateCustoms lookup rand products dest flag).items,
      item.declaration = if flag then str "PERSONAL USE" else str "GIFT" := by
  intro item hitem
  simp only [generateCustoms, List.mem_map] at hitem
  obtain ⟨ip, _, rfl⟩ := hitem
  rfl

/-- C7 (witness): a concrete restricted single-product declaration marks its
item PERSONAL USE. -/
theorem generateCustoms_declaration_flag_witness :
    ({ description := str "Denim Jeans", htsCode := str "6204.62.4040",
       quantity := 2, value := 50, weightOz := convertToOunces 1,
       countryOfOrigin := str "US",
       declaration := str "PERSONAL USE" } : CustomsItem).declaration =
      if true then str "PERSONAL USE" else str "GIFT" :=
  generateCustoms_declaration_flag (fun _ => none) ⟨0, fun _ => 0, fun _ => 0⟩
    [{ description := str "Denim Jeans", quantity := some 2, value := some 50,
       weightLbs := some 1, htsCode := some (str "6204.62.4040"),
       countryOfOrigin := some (str "US") }]
    (str "DE") true _ (List.mem_singleton.mpr rfl)

lemma generateSampleProducts_length (rand : RandomSource)
    (h0 : 0 ≤ rand.count) (h1 : rand.count < 1) :
    2 ≤ (generateSampleProducts rand).length ∧ (generateSampleProducts rand).length ≤ 3 := by
  have hfl0 : (0:ℤ) ≤ ⌊rand.count * 2⌋ := by
    apply Int.le_floor.mpr
    push_cast
    nlinarith
  have hfl1 : ⌊rand.count * 2⌋ < 2 := by
    apply Int.floor_lt.mpr
    push_cast
    nlinarith
  have hnat : (⌊rand.count * 2⌋).toNat ≤ 1 := by omega
  simp only [generateSampleProducts, List.length_map, List.length_range]
  omega

/-- C5 (counterexample): the orchestrator files an international shipment
(destination DE) with no customs declaration at all when the caller supplies
no products, because the customs step is gated on a nonempty product list. -/
theorem international_shipment_without_customs :
    shipmentCustomsInfo (fun _ => none) ⟨0, fun _ => 0, fun _ => 0⟩
        (str "DE") [] false = none ∧
      str "DE" ≠ str "US" := by
  refine ⟨?_, by decide⟩
  simp [shipmentCustomsInfo]

/-- C5 (amended): the Customs Builder itself never produces an empty
declaration — with no products it fabricates 2-3 sample apparel items and with
products it emits one item per product — but the orchestrator invokes it only
when products are present, in which case the created declaration is attached
to the shipment; an international shipment whose caller supplies no products
is sent without a customs declaration. -/
theorem generateCustoms_items_nonempty (lookup : ℕ → Option HTSData)
    (rand : RandomSource) (dest : Str) (flag : Bool) (products : List Product)
    (h0 : 0 ≤ rand.count) (h1 : rand.count < 1) :
    (2 ≤ (generateCustoms lookup rand [] dest flag).items.length ∧
      (generateCustoms lookup rand [] dest flag).items.length ≤ 3) ∧
    (products ≠ [] →
      (generateCustoms lookup rand products dest flag).items.length = products.length) ∧
    (products ≠ [] → dest ≠ str "US" →
      shipmentCustomsInfo lookup rand dest products flag =
        some (generateCustoms lookup rand products dest flag)) := by
  refine ⟨?_, ?_, ?_⟩
  · have := generateSampleProducts_length rand h0 h1
    simpa [generateCustoms, List.enum_length] using this
  · intro hne
    have hni : products.isEmpty = false := by
      cases products with
      | nil => exact absurd rfl hne
      | cons a l => rfl
    simp [generateCustoms, hni, List.enum_length]
  · intro hne hdest
    simp [shipmentCustomsInfo, hne, hdest]

/-- C5 (witness): a concrete empty-product declaration for DE holds 2 items,
and a concrete one-product international shipment carries its declaration. -/
theorem generateCustoms_items_nonempty_witness :
    (2 ≤ (generateCustoms (fun _ => none) ⟨0, fun _ => 0, fun _ => 0⟩
          [] (str "DE") false).items.length ∧
      (generateCustoms (fun _ => none) ⟨0, fun _ => 0, fun _ => 0⟩
          [] (str "DE") false).items.length ≤ 3) ∧
    ([({ description := str "Denim Jeans", quantity := some 1, value := some 50,
         weightLbs := some 1, htsCode := none, countryOfOrigin := none } : Product)] ≠ [] →
      (generateCustoms (fun _ => none) ⟨0, fun _ => 0, fun _ => 0⟩
          [{ description := str "Denim Jeans", quantity := some 1, value := some 50,
             weightLbs := some 1, htsCode := none, countryOfOrigin := none }]
          (str "DE") false).items.length =
        [({ description := str "Denim Jeans", quantity := some 1, value := some 50,
            weightLbs := some 1, htsCode := none,
            countryOfOrigin := none } : Product)].length) ∧
    ([({ description := str "Denim Jeans", quantity := some 1, value := some 50,
         weightLbs := some 1, htsCode := none, countryOfOrigin := none } : Product)] ≠ [] →
      str "DE" ≠ str "US" →
      shipmentCustomsInfo (fun _ => none) ⟨0, fun _ => 0, fun _ => 0⟩ (str "DE")
          [{ description := str "Denim Jeans", quantity := some 1, value := some 50,
             weightLbs := some 1, htsCode := none, countryOfOrigin := none }] false =
        some (generateCustoms (fun _ => none) ⟨0, fun _ => 0, fun _ => 0⟩
          [{ description := str "Denim Jeans", quantity := some 1, value := some 50,
             weightLbs := some 1, htsCode := none, countryOfOrigin := none }]
          (str "DE") false)) :=
  generateCustoms_items_nonempty (fun _ => none) ⟨0, fun _ => 0, fun _ => 0⟩
    (str "DE") false
    [{ description := str "Denim Jeans", quantity := some 1, value := some 50,
       weightLbs := some 1, htsCode := none, countryOfOrigin := none }]
    (by norm_num) (by norm_num)

/-- C4: the orchestrator's customs calculator copy consults the classification
path for every product and overwrites a supplied `htsCode`: a product carrying
its own code 1234.56.7890 but described as a jacket is declared under the
keyword-table jacket code 6201.93.3510 instead. -/
theorem generateCustoms_ignores_supplied_htsCode :
    ((generateCustoms (fun _ => none) ⟨0, fun _ => 0, fun _ => 0⟩
        [{ description := str "Blue Jacket", quantity := some 1, value := some 10,
           weightLbs := some 1, htsCode := some (str "1234.56.7890"),
           countryOfOrigin := some (str "US") }]
        (str "DE") false).items.map CustomsItem.htsCode) = [str "6201.93.3510"] ∧
      str "6201.93.3510" ≠ str "1234.56.7890" ∧
      ((generateCustomsNested (fun _ => none) ⟨0, fun _ => 0, fun _ => 0⟩
          [{ description := str "Blue Jacket", quantity := some 1, value := some 10,
             weightLbs := some 1, htsCode := some (str "1234.56.7890"),
             countryOfOrigin := some (str "US") }]
          (str "DE") false).items.map CustomsItem.htsCode) = [str "1234.56.7890"] := by
  refine ⟨rfl, by decide, rfl⟩

lemma jsTruthyS_some_ne (s : Str) (h : s ≠ []) : jsTruthyS (some s) = true := by
  cases s with
  | nil => exact absurd rfl h
  | cons c cs => rfl

lemma generateDynamicCompanyInfo_fields_nonempty (ps : List Product) :
    (generateDynamicCompanyInfo ps).company ≠ [] ∧
      (generateDynamicCompanyInfo ps).name ≠ [] ∧
      (generateDynamicCompanyInfo ps).email ≠ [] := by
  cases ps with
  | nil => exact ⟨by decide, by decide, by decide⟩
  | cons p l =>
    simp only [generateDynamicCompanyInfo]
    repeat' split
    all_goals exact ⟨by decide, by decide, by decide⟩

/-- C9: for every shipping input, including one whose recipient and product
list are entirely empty, the Ship-From Selector returns a complete sender
address — country US with truthy company, name, email, street1, city, state,
zip and phone — and chooses the Los Angeles warehouse whenever the resolved
ship-from state is neither a California nor a Nevada spelling. -/
theorem selectShipFromAddress_complete (input : ShippingInput) :
    (selectShipFromAddress input).country = some (str "US") ∧
    jsTruthyS (selectShipFromAddress input).company = true ∧
    jsTruthyS (selectShipFromAddress input).name = true ∧
    jsTruthyS (selectShipFromAddress input).email = true ∧
    jsTruthyS (selectShipFromAddress input).street1 = true ∧
    jsTruthyS (selectShipFromAddress input).city = true ∧
    jsTruthyS (selectShipFromAddress input).state = true ∧
    jsTruthyS (selectShipFromAddress input).zip = true ∧
    jsTruthyS (selectShipFromAddress input).phone = true ∧
    (resolvedShipFromState input ∉
        [some (str "CALIFORNIA"), some (str "CA"), some (str "NEVADA"), some (str "NV")] →
      (selectShipFromAddress input).city = some (str "Los Angeles") ∧
      (selectShipFromAddress input).street1 = some (str "1234 S Broadway") ∧
      (selectShipFromAddress input).state = some (str "CA") ∧
      (selectShipFromAddress input).zip = some (str "90015")) := by
  obtain ⟨hc, hn, he⟩ := generateDynamicCompanyInfo_fields_nonempty input.productDetails
  have hcnv : (generateDynamicCompanyInfo input.productDetails).company ++ str " - NV" ≠ [] := by
    intro hnil
    rw [List.append_eq_nil] at hnil
    exact hc hnil.1
  unfold selectShipFromAddress
  dsimp only
  split
  · refine ⟨rfl, jsTruthyS_some_ne _ hc, jsTruthyS_some_ne _ hn, jsTruthyS_some_ne _ he,
      rfl, rfl, rfl, rfl, rfl, ?_⟩
    intro hni
    rename_i hbranch
    exfalso
    rcases Bool.or_eq_true_iff.mp hbranch with h | h
    · exact hni (by simp [decide_eq_true_eq.mp h])
    · exact hni (by simp [decide_eq_true_eq.mp h])
  · split
    · refine ⟨rfl, jsTruthyS_some_ne _ hcnv, jsTruthyS_some_ne _ hn, jsTruthyS_some_ne _ he,
        rfl, rfl, rfl, rfl, rfl, ?_⟩
      intro hni
      rename_i hbranch
      exfalso
      rcases Bool.or_eq_true_iff.mp hbranch with h | h
      · exact hni (by simp [decide_eq_true_eq.mp h])
      · exact hni (by simp [decide_eq_true_eq.mp h])
    · exact ⟨rfl, jsTruthyS_some_ne _ hc, jsTruthyS_some_ne _ hn, jsTruthyS_some_ne _ he,
        rfl, rfl, rfl, rfl, rfl,
        fun _ => ⟨rfl, rfl, rfl, rfl⟩⟩

/-- C9 (witness): the fully empty shipping input receives the complete Los
Angeles sender identity. -/
theorem selectShipFromAddress_complete_witness :
    (selectShipFromAddress
        { recipient := { name := none, company := none, street1 := none, street2 := none,
                         city := none, state := none, zip := none, country := none,
                         phone := none, email := none }
          sender := none, weightLbs := some 1
          dimensions := { length := some 12, width := some 12, height := some 4 }
          productDetails := [], restrictionFlag := false, serviceLevel := none
          shipFromState := none, preferredCarrier := none }).country = some (str "US") ∧
    (selectShipFromAddress
        { recipient := { name := none, company := none, street1 := none, street2 := none,
                         city := none, state := none, zip := none, country := none,
                         phone := none, email := none }
          sender := none, weightLbs := some 1
          dimensions := { length := some 12, width := some 12, height := some 4 }
          productDetails := [], restrictionFlag := false, serviceLevel := none
          shipFromState := none, preferredCarrier := none }).city =
      some (str "Los Angeles") := by
  have h := selectShipFromAddress_complete
    { recipient := { name := none, company := none, street1 := none, street2 := none,
                     city := none, state := none, zip := none, country := none,
                     phone := none, email := none }
      sender := none, weightLbs := some 1
      dimensions := { length := some 12, width := some 12, height := some 4 }
      productDetails := [], restrictionFlag := false, serviceLevel := none
      shipFromState := none, preferredCarrier := none }
  exact ⟨h.1, (h.2.2.2.2.2.2.2.2.2 (by decide)).1⟩

lemma splitChar_of_not_contains (c : Char) (s : Str) (h : s.contains c = false) :
    splitChar c s = [s] := by
  induction s with
  | nil => rfl
  | cons a as ih =>
    simp only [List.contains_cons, Bool.or_eq_false_iff, beq_eq_false_iff_ne] at h
    have hne : ¬ (a = c) := fun hh => h.1 hh.symm
    unfold splitChar splitPred
    rw [if_neg (by simpa using hne)]
    have := ih h.2
    unfold splitChar at this
    rw [this]

lemma jsOrSD_some_ne (t d : Str) (h : t ≠ []) : jsOrSD (some t) d = t := by
  unfold jsOrSD jsOrS
  rw [if_pos (jsTruthyS_some_ne t h)]

lemma get?_eq_some_getD (l : List Str) (n : ℕ) (h : n < l.length) :
    l.get? n = some (l.getD n []) := by
  induction l generalizing n with
  | nil => simp at h
  | cons a t ih =>
    cases n with
    | zero => rfl
    | succ m => exact ih m (Nat.lt_of_succ_lt_succ h)

lemma parseCSVHeader_error_iff (jp : Str → Option Json) (lines : List Str) :
    parseCSVHeader jp lines = Except.error () ↔
      (jsTruthyS (dataGet (headerData lines) (str "productdetails")) &&
        (jp ((dataGet (headerData lines) (str "productdetails")).getD [])).isNone) = true := by
  unfold parseCSVHeader
  dsimp only
  by_cases hp : jsTruthyS (dataGet (headerData lines) (str "productdetails")) = true
  · cases hjp : jp ((dataGet (headerData lines) (str "productdetails")).getD []) with
    | none => simp [hp, hjp, Except.map]
    | some jv => simp [hp, hjp, Except.map]
  · simp only [Bool.not_eq_true] at hp
    simp [hp, Except.map]

/-- C6 (amended): the Normalizer returns a record for every input string —
malformed JSON falls through to the CSV/text heuristics and unstructured text
yields the mostly-empty default record — except on exactly one path: a
header-mode CSV input carrying a truthy `productdetails` field that the JSON
builtin rejects, where the uncaught nested parse error escapes. -/
theorem parseShippingInput_total_unless_bad_pd (jp : Str → Option Json) (input : Str) :
    (parseShippingInput jp input = Except.error () → csvHeaderBadPD jp input = true) ∧
    (csvHeaderBadPD jp input = false → ∃ r, parseShippingInput jp input = Except.ok r) ∧
    (parseShippingInput jsonParseNone (str "gibberish data") = Except.ok textInitial ∧
      textInitial.recipient.street1 = none ∧ textInitial.productDetails = []) := by
  have hmain : parseShippingInput jp input = Except.error () →
      csvHeaderBadPD jp input = true := by
    intro herr
    unfold parseShippingInput at herr
    unfold csvHeaderBadPD
    cases hj : jsonStage jp input with
    | some r => rw [hj] at herr; exact absurd herr (by simp)
    | none =>
      rw [hj] at herr
      by_cases hct : (input.contains ',' || input.contains '\t') = true
      · rw [if_pos hct] at herr
        unfold parseCSVInput at herr
        dsimp only at herr ⊢
        by_cases hpos :
            (splitChar '\n' (trimStr input)).length = 1 ∧
              10 < (match (splitChar '\n' (trimStr input)).head? with
                    | some l0 => splitChar '\t' l0
                    | none => []).length
        · rw [if_pos hpos] at herr
          exact absurd herr (by simp)
        · rw [if_neg hpos] at herr
          have hbad := (parseCSVHeader_error_iff jp (splitChar '\n' (trimStr input))).mp herr
          simp only [hj, Option.isNone_none, Bool.true_and, hct, if_neg hpos]
          exact hbad
      · simp only [Bool.not_eq_true] at hct
        rw [hct] at herr
        simp only [Bool.false_eq_true, if_false] at herr
        exact absurd herr (by simp)
  refine ⟨hmain, ?_, by constructor; rfl; exact ⟨rfl, rfl⟩⟩
  intro hnot
  cases hres : parseShippingInput jp input with
  | error e =>
    cases e
    rw [hmain hres] at hnot
    cases hnot
  | ok r => exact ⟨r, rfl⟩

/-- C6 (counterexample): a header-mode CSV input whose `productdetails` value
is malformed JSON makes the Normalizer throw instead of returning a record. -/
theorem parseShippingInput_throws_on_bad_pd :
    parseShippingInput jsonParseNone (str "productdetails,x\nnotjson,y") =
      Except.error () := by
  rfl

/-- C6 (witness): the failure predicate holds on the concrete throwing input
and fails on unstructured text, which parses to a record. -/
theorem parseShippingInput_total_unless_bad_pd_witness :
    csvHeaderBadPD jsonParseNone (str "productdetails,x\nnotjson,y") = true ∧
      ∃ r, parseShippingInput jsonParseNone (str "gibberish data") = Except.ok r :=
  ⟨(parseShippingInput_total_unless_bad_pd jsonParseNone
      (str "productdetails,x\nnotjson,y")).1 (by rfl),
   (parseShippingInput_total_unless_bad_pd jsonParseNone (str "gibberish data")).2.1
      (by rfl)⟩

/-- C8: for every single-line tab-separated row with more than 10 fields
(fields holding no tab or newline, columns 0 and 11 nonblank), positional CSV
parsing returns a record mapping column 0 to the origin state
(`shipFromState`) and column 11 to the recipient country, whatever the other
fields hold. -/
theorem parseCSVInput_positional_mapping (jp : Str → Option Json)
    (input : Str) (fields : List Str)
    (hsplit : splitChar '\t' (trimStr input) = fields)
    (hnl : (trimStr input).contains '\n' = false)
    (hlen : 11 < fields.length)
    (h0 : trimStr (fields.getD 0 []) ≠ [])
    (h11 : trimStr (fields.getD 11 []) ≠ []) :
    parseCSVInput jp input = Except.ok (parseCSVPositional fields) ∧
      (parseCSVPositional fields).shipFromState = some (trimStr (fields.getD 0 [])) ∧
      (parseCSVPositional fields).recipient.country =
        some (trimStr (fields.getD 11 [])) := by
  have hlines : splitChar '\n' (trimStr input) = [trimStr input] :=
    splitChar_of_not_contains '\n' (trimStr input) hnl
  refine ⟨?_, ?_, ?_⟩
  · unfold parseCSVInput
    rw [hlines]
    dsimp only [List.head?, List.length_singleton]
    rw [hsplit]
    rw [if_pos ⟨rfl, by omega⟩]
  · have hget : fields.get? 0 = some (fields.getD 0 []) :=
      get?_eq_some_getD fields 0 (by omega)
    unfold parseCSVPositional
    dsimp only
    rw [hget]
    simp only [Option.map_some']
    rw [jsOrSD_some_ne _ _ h0]
  · have hget : fields.get? 11 = some (fields.getD 11 []) :=
      get?_eq_some_getD fields 11 (by omega)
    unfold parseCSVPositional
    dsimp only
    rw [hget]
    simp only [Option.map_some']
    rw [jsOrSD_some_ne _ _ h11]

/-- C8 (witness): a concrete 16-column tab-separated row maps its first column
NY to the origin state and column 11 FR to the recipient country. -/
theorem parseCSVInput_positional_mapping_witness :
    parseCSVInput jsonParseNone
        (str "NY\tUPS\tACME\tJohn\t555\tj@x.co\t1 Main\t\tParis\tIDF\t75\tFR\tfalse\t12 x 12 x 4\t2 lbs\tShirt HTS Code: 6109.10.0040") =
      Except.ok (parseCSVPositional
        [str "NY", str "UPS", str "ACME", str "John", str "555", str "j@x.co",
         str "1 Main", str "", str "Paris", str "IDF", str "75", str "FR",
         str "false", str "12 x 12 x 4", str "2 lbs",
         str "Shirt HTS Code: 6109.10.0040"]) ∧
      (parseCSVPositional
        [str "NY", str "UPS", str "ACME", str "John", str "555", str "j@x.co",
         str "1 Main", str "", str "Paris", str "IDF", str "75", str "FR",
         str "false", str "12 x 12 x 4", str "2 lbs",
         str "Shirt HTS Code: 6109.10.0040"]).shipFromState =
        some (trimStr (List.getD
          [str "NY", str "UPS", str "ACME", str "John", str "555", str "j@x.co",
           str "1 Main", str "", str "Paris", str "IDF", str "75", str "FR",
           str "false", str "12 x 12 x 4", str "2 lbs",
           str "Shirt HTS Code: 6109.10.0040"] 0 [])) ∧
      (parseCSVPositional
        [str "NY", str "UPS", str "ACME", str "John", str "555", str "j@x.co",
         str "1 Main", str "", str "Paris", str "IDF", str "75", str "FR",
         str "false", str "12 x 12 x 4", str "2 lbs",
         str "Shirt HTS Code: 6109.10.0040"]).recipient.country =
        some (trimStr (List.getD
          [str "NY", str "UPS", str "ACME", str "John", str "555", str "j@x.co",
           str "1 Main", str "", str "Paris", str "IDF", str "75", str "FR",
           str "false", str "12 x 12 x 4", str "2 lbs",
           str "Shirt HTS Code: 6109.10.0040"] 11 [])) :=
  parseCSVInput_positional_mapping jsonParseNone _ _
    (by decide) (by decide) (by decide) (by decide) (by decide)
